import Mathlib

/-!
Verification of the eureca-building thermal-simulation engine.

Real-valued quantities of the Python source are modelled as rationals (`ℚ`);
division is the total division of `ℚ` (the numpy scalars used throughout the
library return `inf` rather than raising on a zero denominator, so a zero
denominator never aborts a computation path).  Fallible constructors and
setters are modelled with `Option`/`Except`: `none`/`.error` is the Python
exception.  Attributes that may be absent at runtime (Python raises
`AttributeError` on access) are modelled as `Option` fields.
-/

namespace Eureca

/-- Python `int()` applied to a rational: truncation toward zero. -/
def pyint (q : ℚ) : ℤ := if 0 ≤ q then ⌊q⌋ else ⌈q⌉

/-- `numpy.arange(start, stop, step)` for a positive rational step:
the arithmetic progression `start + i * step` of length `⌈(stop - start)/step⌉`. -/
def arangeQ (start stop step : ℚ) : List ℚ :=
  (List.range (Int.toNat ⌈(stop - start) / step⌉)).map (fun i : ℕ => start + (i : ℚ) * step)

/-! ## Material (`material.py`) -/

/-- Embedding of `Material`: the four validated physical properties plus the
internal `_absorptance` slot written by the `absorptance` setter (absent until
the first successful assignment). -/
structure MaterialM where
  thick : ℚ
  cond : ℚ
  spec_heat : ℚ
  dens : ℚ
  absorptanceStored : Option ℚ
  deriving DecidableEq, Repr

/-- Embedding of the `absorptance` property getter of `material.py`
(`return self._spec_heat`). -/
def MaterialM.absorptance (m : MaterialM) : ℚ := m.spec_heat

/-- Embedding of the `absorptance` property setter of `material.py`: reject a
value outside the `material_limits["absorptance"]` bounds (the static limits
table is not under `src/`, so the two bounds are taken as parameters), else
store the value in `_absorptance`. -/
def MaterialM.setAbsorptance (limits : ℚ × ℚ) (m : MaterialM) (v : ℚ) :
    Except String MaterialM :=
  if v < limits.1 ∨ limits.2 < v then .error "MaterialPropertyOutsideBoundaries"
  else .ok { m with absorptanceStored := some v }

/-! ## Surface errors and the `_wwr` setter (`surface.py`) -/

/-- The typed errors of `exceptions.py` that the `Surface` class raises. -/
inductive SurfaceError where
  | non3ComponentsVertex
  | surfaceWrongNumberOfVertices
  | windowToWallRatioOutsideBoundaries
  | invalidSurfaceType
  | nonPlanarSurface
  | negativeSurfaceArea
  deriving DecidableEq, Repr

/-- Embedding of the `_wwr` property setter together with
`_calc_glazed_and_opaque_areas`: reject when `value < 0 or value > 0.999`,
otherwise return `(wwr, opaque_area, glazed_area)` with
`opaque_area = (1 - wwr) * area` and `glazed_area = wwr * area`. -/
def Surface.setWwr (area v : ℚ) : Except SurfaceError (ℚ × ℚ × ℚ) :=
  if v < 0 ∨ (999 : ℚ)/1000 < v then .error .windowToWallRatioOutsideBoundaries
  else .ok (v, (1 - v) * area, v * area)

/-- Embedding of the `_area` property setter: negative raises
`NegativeSurfaceArea`, an exact zero is floored to `1e-10`. -/
def Surface.setArea (v : ℚ) : Except SurfaceError ℚ :=
  if v < 0 then .error .negativeSurfaceArea
  else if v = 0 then .ok (1 / 10 ^ 10)
  else .ok v

/-- Embedding of `Surface._set_auto_surface_type`: tilt below 40° gives
`Roof`, above 150° gives `GroundFloor`, otherwise `ExtWall`. -/
def Surface.set_auto_surface_type (height : ℚ) : String :=
  if height < 40 then "Roof"
  else if 150 < height then "GroundFloor"
  else "ExtWall"

/-! ## Surface solar discretization (`surface.py`,
`_set_azimuth_and_zenith_solar_radiation`) -/

/-- The stored discretized orientation: `_height_round` and `_azimuth_round`
(`none` models the attribute never having been assigned). -/
structure SolarRound where
  heightRound : ℤ
  azimuthRound : Option ℤ
  deriving DecidableEq, Repr

/-- One iteration of the height loop of
`_set_azimuth_and_zenith_solar_radiation`.  Note that the `else` branch of the
source assigns `_height_round = 0` unconditionally, so every iteration
overwrites the previous value. -/
def heightIter (x : List ℚ) (height : ℚ) (n : ℕ) : ℤ :=
  if x.getD n 0 ≤ height ∧ height < x.getD (n + 1) 0 then
    pyint ((x.getD n 0 + x.getD (n + 1) 0) / 2)
  else if x.getLast?.getD 0 ≤ height ∧ height < 150 then 90
  else 0

/-- One iteration of the azimuth loop: assigns the truncated bucket center
(with `180` mapped to `-180`) when the azimuth falls in bucket `n`, otherwise
leaves the accumulator unchanged. -/
def azimuthIter (y : List ℚ) (azimuth : ℚ) (acc : Option ℤ) (n : ℕ) : Option ℤ :=
  if y.getD n 0 ≤ azimuth ∧ azimuth < y.getD (n + 1) 0 then
    let c := pyint ((y.getD n 0 + y.getD (n + 1) 0) / 2)
    some (if c = 180 then -180 else c)
  else acc

/-- `delta_h = 90 / (2 * height_subdivisions)`. -/
def delta_hQ (h : ℕ) : ℚ := 90 / (2 * (h : ℚ))

/-- `delta_a = 360 / (2 * azimuth_subdivisions)`. -/
def delta_aQ (a : ℕ) : ℚ := 360 / (2 * (a : ℚ))

/-- The height scan `x = np.arange(-delta_h, 90 + 2*delta_h, 2*delta_h)`. -/
def xScan (h : ℕ) : List ℚ :=
  arangeQ (-delta_hQ h) (90 + 2 * delta_hQ h) (2 * delta_hQ h)

/-- The azimuth scan `y = np.arange(-180 - delta_a, 180 + 2*delta_a, 2*delta_a)`. -/
def yScan (a : ℕ) : List ℚ :=
  arangeQ (-180 - delta_aQ a) (180 + 2 * delta_aQ a) (2 * delta_aQ a)

/-- Embedding of `Surface._set_azimuth_and_zenith_solar_radiation` for
`azimuth_subdivisions = a` and `height_subdivisions = h`:
`delta_a = 360/(2a)`, `delta_h = 90/(2h)`, the two bucket scans, and the final
`if self._height_round == 0: self._azimuth_round = 0`. -/
def set_azimuth_and_zenith_solar_radiation (a h : ℕ) (height azimuth : ℚ) :
    SolarRound :=
  let x := xScan h
  let hr := (List.range (x.length - 1)).foldl (fun _ n => heightIter x height n) 0
  let y := yScan a
  let az := (List.range (y.length - 1)).foldl (azimuthIter y azimuth) none
  ⟨hr, if hr = 0 then some 0 else az⟩

/-- Embedding of `Surface.__init__` restricted to the fields the claims are
about.  The tilt (`height`), `azimuth` and raw polygon `area` are taken as
inputs (the geometry auxiliary functions are in a module that is not under
`src/`).  The assignments `self.surface_type = surface_type` and the call to
`_set_auto_surface_type` are commented out in the source, so the constructor
leaves `surface_type` unset whatever the argument is. -/
structure SurfaceM where
  area : ℚ
  height : ℚ
  azimuth : ℚ
  wwr : ℚ
  opaqueArea : ℚ
  glazedArea : ℚ
  solar : Option SolarRound
  surfaceType : Option String
  deriving DecidableEq, Repr

/-- `Surface.__init__`: area validation/flooring, wwr default `0.0` and
validation, the optional solar discretization, and no `surface_type`
assignment (see `SurfaceM`). -/
def Surface.init (height azimuth rawArea : ℚ) (wwr : Option ℚ)
    (subdivisions : Option (ℕ × ℕ)) (_surface_type : Option String) :
    Except SurfaceError SurfaceM := do
  let area ← Surface.setArea rawArea
  let (w, opq, glazed) ← Surface.setWwr area (wwr.getD 0)
  let solar := subdivisions.map (fun p =>
    set_azimuth_and_zenith_solar_radiation p.1 p.2 height azimuth)
  pure ⟨area, height, azimuth, w, opq, glazed, solar, none⟩

/-! ## ThermalZone volume / net floor area setters (`thermal_zone.py`) -/

/-- Embedding of the `_volume` / `_net_floor_area` property setters: the first
component is the stored value (`1e-5` when `abs(value) < 1e-5`, else
`abs(value)`); the second is whether the negative-input message was logged
(the source calls `logging.error`). -/
def ThermalZone.storeFloored (v : ℚ) : ℚ × Bool :=
  (if |v| < 1 / 10 ^ 5 then 1 / 10 ^ 5 else |v|, decide (v < 0))

/-! ## Schedule (`schedule.py`) -/

/-- The typed schedule errors of `exceptions.py`. -/
inductive ScheduleError where
  | invalidScheduleType
  | scheduleOutsideBoundaryCondition
  | invalidScheduleDimension
  | scheduleLengthNotConsistent
  deriving DecidableEq, Repr

/-- `schedule_types["unit_type"]` of `schedule_properties.py`: the admissible
schedule types, all lowercase. -/
def schedule_types_unit_type : List String :=
  ["dimensionless", "percent", "temperature", "capacity", "power"]

/-- Embedding of the `_lower_limit` setter: `None` becomes `-1e20`, and a
`"Percent"` schedule type overrides any caller value with `0`.  The
comparison is against the capitalized `"Percent"`, verbatim from the source;
since the `schedule_type` setter admits only the lowercase
`schedule_types_unit_type` entries, this branch is dead code for any
constructed schedule. -/
def Schedule.lowerLimit (schedule_type : String) (given : Option ℚ) : ℚ :=
  if schedule_type = "Percent" then 0 else given.getD (-(10 ^ 20))

/-- Embedding of the `_upper_limit` setter: `None` becomes `1e20`, and a
`"Percent"` schedule type overrides any caller value with `1` (dead code for
any constructed schedule, see `Schedule.lowerLimit`). -/
def Schedule.upperLimit (schedule_type : String) (given : Option ℚ) : ℚ :=
  if schedule_type = "Percent" then 1 else given.getD (10 ^ 20)

/-- Embedding of the `schedule` property setter: the checks run in source
order — dimension, any value above the upper limit, any value below the lower
limit, then length against `CONFIG.number_of_time_steps_year` (a parameter
here).  `ndim` is the numpy array dimension; `data` its entries.
Construction routes through `Schedule.init`, which first validates the
schedule type. -/
def Schedule.set (schedule_type : String) (lower upper : Option ℚ)
    (ndim : ℕ) (data : List ℚ) (nStepsYear : ℕ) :
    Except ScheduleError (List ℚ) :=
  if 1 < ndim then .error .invalidScheduleDimension
  else if ∃ v ∈ data, Schedule.upperLimit schedule_type upper < v then
    .error .scheduleOutsideBoundaryCondition
  else if ∃ v ∈ data, v < Schedule.lowerLimit schedule_type lower then
    .error .scheduleOutsideBoundaryCondition
  else if data.length ≠ nStepsYear then .error .scheduleLengthNotConsistent
  else .ok data

/-- Embedding of `Schedule.__init__`: the `schedule_type` setter runs first
and raises `InvalidScheduleType` for any type outside
`schedule_types["unit_type"]`; then the limit setters and the `schedule`
array setter run. -/
def Schedule.init (schedule_type : String) (lower upper : Option ℚ)
    (ndim : ℕ) (data : List ℚ) (nStepsYear : ℕ) :
    Except ScheduleError (List ℚ) :=
  if schedule_type ∉ schedule_types_unit_type then .error .invalidScheduleType
  else Schedule.set schedule_type lower upper ndim data nStepsYear

/-! ## People internal load (`internal_load.py`) -/

/-- Embedding of `People`: nominal value, unit, split fractions, metabolic
rate and the (already validated) schedule array. -/
structure PeopleM where
  nominal_value : ℚ
  unit : String
  fraction_latent : ℚ
  fraction_radiant : ℚ
  fraction_convective : ℚ
  metabolic_rate : ℚ
  schedule : List ℚ
  deriving DecidableEq, Repr

/-- The `unit` setter's choice of `_calculation_method`. -/
def People.calculationMethod (unit : String) : String :=
  if unit = "W/m2" ∨ unit = "px/m2" then "floor_area" else "absolute"

/-- Embedding of `People._get_absolute_value_nominal`: `area` is required for
an area-specific unit (`AreaNotProvided` otherwise, modelled as `none`); the
px→W converter is the metabolic rate for the people-count units. -/
def People.nominalValueAbsolute (p : PeopleM) (area : Option ℚ) : Option ℚ :=
  if People.calculationMethod p.unit = "floor_area" then
    match area with
    | none => none
    | some A => some (A * (if p.unit = "px" ∨ p.unit = "px/m2" then p.metabolic_rate else 1) * p.nominal_value)
  else
    some (1 * (if p.unit = "px" ∨ p.unit = "px/m2" then p.metabolic_rate else 1) * p.nominal_value)

/-- Embedding of `People.get_convective_load`:
`(1 - fraction_latent) * fraction_convective * nominal_value_absolute *
schedule`. -/
def People.getConvectiveLoad (p : PeopleM) (area : Option ℚ) : Option (List ℚ) :=
  (People.nominalValueAbsolute p area).map (fun nv =>
    p.schedule.map (fun s => (1 - p.fraction_latent) * p.fraction_convective * nv * s))

/-- Embedding of `People.get_radiant_load`:
`(1 - fraction_latent) * fraction_radiant * nominal_value_absolute *
schedule`. -/
def People.getRadiantLoad (p : PeopleM) (area : Option ℚ) : Option (List ℚ) :=
  (People.nominalValueAbsolute p area).map (fun nv =>
    p.schedule.map (fun s => (1 - p.fraction_latent) * p.fraction_radiant * nv * s))

/-! ## ThermalZone parameter builds (`thermal_zone.py`) -/

/-- The construction attributes read by the two parameter builds
(`construction.py` / the construction contract of the spec). -/
structure ConstructionM where
  u_value : ℚ
  R_si : ℚ
  k_int : ℚ
  k_est : ℚ
  thermal_resistances : List ℚ
  deriving DecidableEq, Repr

/-- The window attributes read by the two parameter builds (`SimpleWindow` is
not under `src/`; these are the attributes its callers read). -/
structure WindowM where
  u_value : ℚ
  Rl_w : ℚ
  Ri_w : ℚ
  deriving DecidableEq, Repr

/-- A surface as seen by `ThermalZone`: `surface_type`, areas, the optional
construction and window links, and the surface's single-layer equivalent
impedance.

Modelled from the spec: `Surface.get_VDI6007_surface_params`, the auxiliary
routine reducing the construction's layered network to one `(R1, C1)` pair
(spec §4.4 step "compute a single-layer-equivalent impedance (R1,C1) per
surface via a documented reduction"), is not under `src/`; its result is
carried as the data field `r1c1`, on which no claim here depends. -/
structure SurfaceTZ where
  surfaceType : Option String
  area : ℚ
  opaqueArea : ℚ
  glazedArea : ℚ
  construction : Option ConstructionM
  window : Option WindowM
  r1c1 : ℚ × ℚ
  deriving DecidableEq, Repr

/-- The outer surface types of both builds. -/
def SurfaceTZ.isOuterType (st : String) : Prop :=
  st = "ExtWall" ∨ st = "GroundFloor" ∨ st = "Roof"

/-- The inner surface types of the VDI 6007 build. -/
def SurfaceTZ.isInnerType (st : String) : Prop :=
  st = "IntWall" ∨ st = "IntCeiling" ∨ st = "IntFloor"

instance (st : String) : Decidable (SurfaceTZ.isOuterType st) := by
  unfold SurfaceTZ.isOuterType; infer_instance

instance (st : String) : Decidable (SurfaceTZ.isInnerType st) := by
  unfold SurfaceTZ.isInnerType; infer_instance

/-- Accumulator of the `_ISO13790_params` surface loop. -/
structure ISOAcc where
  Cm : ℚ
  DenAm : ℚ
  Atot : ℚ
  Htr_op : ℚ
  Htr_w : ℚ
  deriving DecidableEq, Repr

/-- The unconditional part of one `_ISO13790_params` loop iteration: the
`Cm`/`DenAm` accumulation (with `k_est` for an `IntFloor`, `k_int`
otherwise) and the `Atot` accumulation. -/
def isoBase (s : SurfaceTZ) (c : ConstructionM) (st : String) (acc : ISOAcc) : ISOAcc :=
  if st = "IntFloor" then
    ⟨acc.Cm + s.opaqueArea * c.k_est, acc.DenAm + s.opaqueArea * c.k_est ^ 2,
     acc.Atot + s.area, acc.Htr_op, acc.Htr_w⟩
  else
    ⟨acc.Cm + s.opaqueArea * c.k_int, acc.DenAm + s.opaqueArea * c.k_int ^ 2,
     acc.Atot + s.area, acc.Htr_op, acc.Htr_w⟩

/-- One iteration of the `_ISO13790_params` surface loop.  A missing
`surface_type`, a missing construction, or a missing window where
`glazed_area > 0` on an outer surface, raises (`AttributeError`), modelled as
`none`. -/
def isoStep (s : SurfaceTZ) (acc : ISOAcc) : Option ISOAcc :=
  match s.surfaceType, s.construction with
  | some st, some c =>
    if SurfaceTZ.isOuterType st then
      if 0 < s.glazedArea then
        match s.window with
        | some w => some { isoBase s c st acc with
            Htr_op := (isoBase s c st acc).Htr_op + s.opaqueArea * c.u_value,
            Htr_w := (isoBase s c st acc).Htr_w + s.glazedArea * w.u_value }
        | none => none
      else some { isoBase s c st acc with
            Htr_op := (isoBase s c st acc).Htr_op + s.opaqueArea * c.u_value }
    else some (isoBase s c st acc)
  | _, _ => none

/-- The `_ISO13790_params` surface loop. -/
def isoLoop : List SurfaceTZ → ISOAcc → Option ISOAcc
  | [], acc => some acc
  | s :: rest, acc => (isoStep s acc).bind (isoLoop rest)

/-- The parameters stored by `_ISO13790_params`. -/
structure ISOParams where
  Cm : ℚ
  DenAm : ℚ
  Atot : ℚ
  Htr_op : ℚ
  Htr_w : ℚ
  htr_ms : ℚ
  h_is : ℚ
  Am : ℚ
  Htr_ms : ℚ
  Htr_em : ℚ
  Htr_is : ℚ
  UA_tot : ℚ
  deriving DecidableEq, Repr

/-- Embedding of `ThermalZone._ISO13790_params`: the surface loop followed by
the final calculation with the fixed film coefficients `htr_ms = 9.1` and
`h_is = 3.45`. -/
def ISO13790_params (surfs : List SurfaceTZ) : Option ISOParams :=
  (isoLoop surfs ⟨0, 0, 0, 0, 0⟩).map (fun acc =>
    let htr_ms : ℚ := 91 / 10
    let h_is : ℚ := 69 / 20
    let Am := acc.Cm ^ 2 / acc.DenAm
    let Htr_ms := Am * htr_ms
    let Htr_em := 1 / (1 / acc.Htr_op - 1 / Htr_ms)
    ⟨acc.Cm, acc.DenAm, acc.Atot, acc.Htr_op, acc.Htr_w, htr_ms, h_is,
      Am, Htr_ms, Htr_em, h_is * acc.Atot, acc.Htr_op + acc.Htr_w⟩)

/-- Accumulator of the `_VDI6007_params` surface loop: the arrays built by
`np.append` and the two area totals. -/
structure VDIAcc where
  R1AW_v : List ℚ
  C1AW_v : List ℚ
  R1IW_m : List ℚ
  C1IW_m : List ℚ
  R_IW : List ℚ
  HAW_v : List ℚ
  HAF_v : List ℚ
  alphaKonAW : List ℚ
  alphaKonIW : List ℚ
  alphaKonAF : List ℚ
  RalphaStrAW : List ℚ
  RalphaStrIW : List ℚ
  RalphaStrAF : List ℚ
  AreaAW : List ℚ
  AreaAF : List ℚ
  AreaIW : List ℚ
  Araum : ℚ
  Aaw : ℚ
  deriving DecidableEq, Repr

/-- The empty `VDIAcc`. -/
def vdiInit : VDIAcc := ⟨[], [], [], [], [], [], [], [], [], [], [], [], [], [], [], [], 0, 0⟩

/-- The outer-surface branch of one `_VDI6007_params` loop iteration, with
`alphaStr = 5`; the four glazed quantities `R_AF_v`, the `HAF_v` entry, the
`alphaKonAF` entry and the `RalphaStrAF` entry are passed in (they depend on
whether a window is present). -/
def vdiStepOuter (s : SurfaceTZ) (c : ConstructionM) (acc : VDIAcc)
    (rafv haf akaf rstraf : ℚ) : VDIAcc :=
  { acc with
    Araum := acc.Araum + s.area,
    Aaw := acc.Aaw + s.area,
    C1AW_v := acc.C1AW_v ++ [s.r1c1.2],
    HAW_v := acc.HAW_v ++ [c.u_value * s.opaqueArea],
    alphaKonAW := acc.alphaKonAW ++ [s.opaqueArea * (1 / c.R_si - 5)],
    RalphaStrAW := acc.RalphaStrAW ++ [1 / (s.opaqueArea * 5)],
    HAF_v := acc.HAF_v ++ [haf],
    alphaKonAF := acc.alphaKonAF ++ [akaf],
    RalphaStrAF := acc.RalphaStrAF ++ [rstraf],
    R1AW_v := acc.R1AW_v ++ [1 / (1 / s.r1c1.1 + 1 / rafv)],
    AreaAW := acc.AreaAW ++ [s.opaqueArea],
    AreaAF := acc.AreaAF ++ [s.glazedArea] }

/-- One iteration of the `_VDI6007_params` surface loop.  A missing
`surface_type` or construction raises (`AttributeError`, uncaught), and an
unrecognized surface type raises `TypeError`; both are `none`.  A missing
window takes the source's `except AttributeError` defaults `R_AF_v = 1e15`,
`HAF = 0`, `alphaKonAF = 0`, `RalphaStrAF = 1e15`. -/
def vdiStep (s : SurfaceTZ) (acc : VDIAcc) : Option VDIAcc :=
  match s.surfaceType with
  | none => none
  | some st =>
    if SurfaceTZ.isOuterType st then
      match s.construction with
      | none => none
      | some c =>
        match s.window with
        | some w => some (vdiStepOuter s c acc (w.Rl_w / s.glazedArea)
            (w.u_value * s.glazedArea) (s.glazedArea * (1 / w.Ri_w - 5))
            (1 / (s.glazedArea * 5)))
        | none => some (vdiStepOuter s c acc ((10 : ℚ) ^ 15) 0 0 ((10 : ℚ) ^ 15))
    else if SurfaceTZ.isInnerType st then
      match s.construction with
      | none => none
      | some c =>
        some { acc with
          Araum := acc.Araum + s.area,
          R1IW_m := acc.R1IW_m ++ [s.r1c1.1],
          C1IW_m := acc.C1IW_m ++ [s.r1c1.2],
          R_IW := acc.R_IW ++ [c.thermal_resistances.sum],
          alphaKonIW := acc.alphaKonIW ++ [s.opaqueArea * (1 / c.R_si - 5)],
          RalphaStrIW := acc.RalphaStrIW ++ [1 / (s.opaqueArea * 5)],
          AreaIW := acc.AreaIW ++ [s.area] }
    else none

/-- The `_VDI6007_params` surface loop. -/
def vdiLoop : List SurfaceTZ → VDIAcc → Option VDIAcc
  | [], acc => some acc
  | s :: rest, acc => (vdiStep s acc).bind (vdiLoop rest)

/-- The parameters stored by `_VDI6007_params`. -/
structure VDIParams where
  R1AW : ℚ
  C1AW : ℚ
  R1IW : ℚ
  C1IW : ℚ
  RgesAW : ℚ
  RalphaStrAWIW : ℚ
  RrestAW : ℚ
  RalphaStarIL : ℚ
  RalphaStarAW : ℚ
  RalphaStarIW : ℚ
  UA_tot : ℚ
  Htr_op : ℚ
  Htr_w : ℚ
  Araum : ℚ
  Aaw : ℚ
  deriving DecidableEq, Repr

/-- Embedding of `ThermalZone._VDI6007_params` after the surface loop, with
`alphaStr = 5` and `alphaKonA = 20`.

Modelled from the spec: `impedence_parallel` (VDI 6007 eq. 22) and `tri2star`
(the triangle→star impedance transform) live in
`_VDI6007_auxiliary_functions`, which is not under `src/`; they are taken as
the function parameters `ip` and `ts`, on whose values no claim here
depends. -/
def VDI6007_params (ip : List ℚ → List ℚ → ℚ × ℚ)
    (ts : ℚ → ℚ → ℚ → ℚ × ℚ × ℚ) (surfs : List SurfaceTZ) : Option VDIParams :=
  (vdiLoop surfs vdiInit).map (fun acc =>
    let r1aw := ip acc.R1AW_v acc.C1AW_v
    let r1iw := ip acc.R1IW_m acc.C1IW_m
    let RgesAW := 1 / (acc.HAW_v.sum + acc.HAF_v.sum)
    let RalphaKonAW := 1 / (acc.alphaKonAW.sum + acc.alphaKonAF.sum)
    let RalphaKonIW := 1 / acc.alphaKonIW.sum
    let RalphaStrAWIW :=
      if acc.AreaAW.sum ≤ acc.AreaIW.sum then
        1 / ((acc.RalphaStrAW.map (fun r => 1 / r)).sum
             + (acc.RalphaStrAF.map (fun r => 1 / r)).sum)
      else
        1 / (acc.RalphaStrIW.map (fun r => 1 / r)).sum
    let RrestAW0 := RgesAW - r1aw.1 - 1 / (1 / RalphaKonAW + 1 / RalphaStrAWIW)
    let RalphaGesAW_A := 1 / (20 * (acc.AreaAF.sum + acc.AreaAW.sum))
    let rrR1 : ℚ × ℚ :=
      if RgesAW < RalphaGesAW_A then
        let R1AW' := RgesAW - RalphaGesAW_A - 1 / (1 / RalphaKonAW + 1 / RalphaStrAWIW)
        (RalphaGesAW_A, if R1AW' < 1 / 10 ^ 10 then 1 / 10 ^ 10 else R1AW')
      else (RrestAW0, r1aw.1)
    let star := ts RalphaStrAWIW RalphaKonIW RalphaKonAW
    ⟨rrR1.2, r1aw.2, r1iw.1, r1iw.2, RgesAW, RalphaStrAWIW, rrR1.1,
      star.1, star.2.1, star.2.2,
      acc.HAW_v.sum + acc.HAF_v.sum, acc.HAW_v.sum, acc.HAF_v.sum,
      acc.Araum, acc.Aaw⟩)

/-- The per-surface `Htr_op` contribution common to both builds: outer-type
surfaces contribute `opaque_area * construction.u_value`. -/
def htrOpTerm (s : SurfaceTZ) : ℚ :=
  match s.surfaceType, s.construction with
  | some st, some c => if SurfaceTZ.isOuterType st then s.opaqueArea * c.u_value else 0
  | _, _ => 0

/-- The per-surface `Htr_w` contribution of the ISO 13790 build: outer-type
surfaces with `glazed_area > 0` contribute `glazed_area * window.u_value`. -/
def isoHtrWTerm (s : SurfaceTZ) : ℚ :=
  match s.surfaceType, s.window with
  | some st, some w =>
    if SurfaceTZ.isOuterType st ∧ 0 < s.glazedArea then s.glazedArea * w.u_value else 0
  | _, _ => 0

/-- The per-surface `HAF_v` entry of the VDI 6007 build: outer-type surfaces
contribute `window.u_value * glazed_area` when a window is present, else 0. -/
def vdiHtrWTerm (s : SurfaceTZ) : ℚ :=
  match s.surfaceType, s.window with
  | some st, some w => if SurfaceTZ.isOuterType st then w.u_value * s.glazedArea else 0
  | _, _ => 0

/-- The opaque area of a surface when it is outer-typed, else 0. -/
def outerOpaqueTerm (s : SurfaceTZ) : ℚ :=
  match s.surfaceType with
  | some st => if SurfaceTZ.isOuterType st then s.opaqueArea else 0
  | none => 0

/-- The glazed area of a surface when it is outer-typed, else 0. -/
def outerGlazedTerm (s : SurfaceTZ) : ℚ :=
  match s.surfaceType with
  | some st => if SurfaceTZ.isOuterType st then s.glazedArea else 0
  | none => 0

/-- The area of a surface when it is inner-typed, else 0. -/
def innerAreaTerm (s : SurfaceTZ) : ℚ :=
  match s.surfaceType with
  | some st => if SurfaceTZ.isInnerType st then s.area else 0
  | none => 0

/-- The total opaque area of outer-type surfaces (what `sum(AreaAW)`
computes). -/
def outerOpaqueArea (surfs : List SurfaceTZ) : ℚ := (surfs.map outerOpaqueTerm).sum

/-- The total glazed area of outer-type surfaces (what `sum(AreaAF)`
computes). -/
def outerGlazedArea (surfs : List SurfaceTZ) : ℚ := (surfs.map outerGlazedTerm).sum

/-- The total area of inner-type surfaces (what `sum(AreaIW)` computes). -/
def innerTotalArea (surfs : List SurfaceTZ) : ℚ := (surfs.map innerAreaTerm).sum

/-! ## Derived bucket descriptions and concrete fixtures -/

/-- Lower edge of azimuth bucket `n` in the `y` scan of
`_set_azimuth_and_zenith_solar_radiation`: `y[n] = -180 - delta_a + n * 2 * delta_a`
with `delta_a = 180/a`. -/
def azBucketLower (a n : ℕ) : ℚ := -180 - 180 / (a : ℚ) + n * (360 / (a : ℚ))

/-- The stored center of azimuth bucket `n`: the truncated midpoint
`int((y[n] + y[n+1])/2) = int(-180 + n * 360/a)`, with `180` mapped to
`-180`. -/
def azBucketCenter (a n : ℕ) : ℤ :=
  let c := pyint (-180 + n * (360 / (a : ℚ)))
  if c = 180 then -180 else c

/-- A constant stand-in for the missing `impedence_parallel` routine, used
only to instantiate theorems at a concrete input. -/
def constIP : List ℚ → List ℚ → ℚ × ℚ := fun _ _ => (0, 0)

/-- A constant stand-in for the missing `tri2star` routine, used only to
instantiate theorems at a concrete input. -/
def constTS : ℚ → ℚ → ℚ → ℚ × ℚ × ℚ := fun _ _ _ => (0, 0, 0)

/-- Fixture: an external wall of area 2, fully opaque, without window. -/
def extSurfFix : SurfaceTZ := ⟨some "ExtWall", 2, 2, 0, some ⟨1, 1/25, 1, 1, []⟩, none, (1, 1)⟩

/-- Fixture: an external wall of area 10 split 6 m² opaque / 4 m² glazed,
with a window. -/
def extSurfWinFix : SurfaceTZ :=
  ⟨some "ExtWall", 10, 6, 4, some ⟨1, 1/25, 1, 1, []⟩, some ⟨1, 1, 1/25⟩, (1, 1)⟩

/-- Fixture: an internal wall of area 8. -/
def intSurfFix : SurfaceTZ := ⟨some "IntWall", 8, 8, 0, some ⟨1, 1/25, 1, 1, []⟩, none, (1, 1)⟩

/-- The ISO 13790 parameters of the zone `[extSurfFix]`. -/
def isoParamsFix : ISOParams := ⟨2, 2, 2, 2, 0, 91/10, 69/20, 2, 91/5, 182/81, 69/10, 2⟩

/-- The VDI 6007 parameters of the zone `[extSurfFix]` under `constIP`/`constTS`. -/
def vdiParamsFix : VDIParams := ⟨0, 0, 0, 0, 1/2, 0, 19/40, 0, 0, 0, 2, 2, 0, 2, 2⟩

/-- The VDI 6007 parameters of the zone `[intSurfFix]` under `constIP`/`constTS`. -/
def vdiParamsInnerFix : VDIParams := ⟨0, 0, 0, 0, 0, 0, 0, 0, 0, 0, 0, 0, 0, 8, 0⟩

/-- The VDI 6007 parameters of the zone `[extSurfWinFix, intSurfFix]` under
`constIP`/`constTS`. -/
def vdiParamsCtrFix : VDIParams := ⟨0, 0, 0, 0, 1/10, 1/50, 12/125, 0, 0, 0, 10, 6, 4, 18, 10⟩

end Eureca

namespace Eureca

/-! # Theorems -/

/-! ### Solar discretization lemmas -/

/-- Folding a function that ignores its accumulator over `range (m+1)`
returns the value at the last index — exactly what the height loop of
`_set_azimuth_and_zenith_solar_radiation` does, since every one of its three
branches assigns `_height_round`. -/
theorem foldl_ignore_acc {α : Type} (f : ℕ → α) (init : α) (m : ℕ) :
    (List.range (m + 1)).foldl (fun _ n => f n) init = f m := by
  rw [List.range_succ, List.foldl_append]
  simp

/-- Length of `arangeQ`. -/
theorem arangeQ_length (start stop step : ℚ) :
    (arangeQ start stop step).length = Int.toNat ⌈(stop - start) / step⌉ := by
  simp [arangeQ]

/-- Entries of `arangeQ`. -/
theorem arangeQ_getD (start stop step : ℚ) (k : ℕ)
    (hk : k < Int.toNat ⌈(stop - start) / step⌉) :
    (arangeQ start stop step).getD k 0 = start + k * step := by
  unfold arangeQ
  rw [List.getD_eq_getElem?_getD, List.getElem?_map, List.getElem?_range hk]
  rfl

/-- Last entry of `arangeQ`. -/
theorem arangeQ_getLast (start stop step : ℚ) (N : ℕ)
    (hN : N = Int.toNat ⌈(stop - start) / step⌉) (h : 0 < N) :
    (arangeQ start stop step).getLast?.getD 0 = start + ((N : ℚ) - 1) * step := by
  unfold arangeQ
  rw [List.getLast?_eq_getElem?]
  simp only [List.length_map, List.length_range]
  rw [List.getElem?_map, List.getElem?_range (by omega)]
  simp only [Option.map_some', Option.getD_some]
  rw [← hN]
  congr 1
  push_cast [Nat.cast_sub (by omega : 1 ≤ N)]
  ring

/-- `h * (2 * delta_h) = 90` for `h ≥ 1`. -/
theorem h_mul_delta (h : ℕ) (hh : 1 ≤ h) : (h : ℚ) * (2 * delta_hQ h) = 90 := by
  have hq : (h : ℚ) ≠ 0 := Nat.cast_ne_zero.mpr (by omega)
  field_simp [delta_hQ]
  ring

/-- `delta_h = 45 / h`. -/
theorem delta_h_eq (h : ℕ) : delta_hQ h = 45 / (h : ℚ) := by
  unfold delta_hQ
  rcases eq_or_ne (h : ℚ) 0 with h0 | h0
  · simp [h0]
  · field_simp
    ring

/-- `a * (2 * delta_a) = 360` for `a ≥ 1`. -/
theorem a_mul_delta (a : ℕ) (ha : 1 ≤ a) : (a : ℚ) * (2 * delta_aQ a) = 360 := by
  have hq : (a : ℚ) ≠ 0 := Nat.cast_ne_zero.mpr (by omega)
  field_simp [delta_aQ]
  ring

/-- `delta_a = 180 / a`. -/
theorem delta_a_eq (a : ℕ) : delta_aQ a = 180 / (a : ℚ) := by
  unfold delta_aQ
  rcases eq_or_ne (a : ℚ) 0 with h0 | h0
  · simp [h0]
  · field_simp
    ring

/-- The `arange` count of the height scan is `h + 2`. -/
theorem xScan_count (h : ℕ) (hh : 1 ≤ h) :
    Int.toNat ⌈(90 + 2 * delta_hQ h - -delta_hQ h) / (2 * delta_hQ h)⌉ = h + 2 := by
  have hq : (h : ℚ) ≠ 0 := Nat.cast_ne_zero.mpr (by omega)
  have hd : (90 + 2 * delta_hQ h - -delta_hQ h) / (2 * delta_hQ h) = (h : ℚ) + 3/2 := by
    unfold delta_hQ
    field_simp
    ring
  rw [hd]
  have hc : ⌈(h : ℚ) + 3/2⌉ = (h : ℤ) + 2 := by
    rw [Int.ceil_eq_iff] <;> constructor <;> push_cast <;> linarith
  rw [hc]
  omega

/-- The height scan has `h + 2` entries. -/
theorem xScan_length (h : ℕ) (hh : 1 ≤ h) : (xScan h).length = h + 2 := by
  rw [xScan, arangeQ_length, xScan_count h hh]

/-- Entries of the height scan. -/
theorem xScan_getD (h : ℕ) (hh : 1 ≤ h) (k : ℕ) (hk : k < h + 2) :
    (xScan h).getD k 0 = -delta_hQ h + k * (2 * delta_hQ h) := by
  rw [xScan, arangeQ_getD]
  rw [xScan_count h hh]
  omega

/-- The last entry of the height scan is `90 + delta_h`. -/
theorem xScan_getLast (h : ℕ) (hh : 1 ≤ h) :
    (xScan h).getLast?.getD 0 = 90 + delta_hQ h := by
  rw [xScan, arangeQ_getLast _ _ _ (h + 2) (xScan_count h hh).symm (by omega)]
  push_cast
  linear_combination h_mul_delta h hh

/-- The `arange` count of the azimuth scan is `a + 2`. -/
theorem yScan_count (a : ℕ) (ha : 1 ≤ a) :
    Int.toNat ⌈(180 + 2 * delta_aQ a - (-180 - delta_aQ a)) / (2 * delta_aQ a)⌉ = a + 2 := by
  have hq : (a : ℚ) ≠ 0 := Nat.cast_ne_zero.mpr (by omega)
  have hd : (180 + 2 * delta_aQ a - (-180 - delta_aQ a)) / (2 * delta_aQ a)
      = (a : ℚ) + 3/2 := by
    unfold delta_aQ
    field_simp
    ring
  rw [hd]
  have hc : ⌈(a : ℚ) + 3/2⌉ = (a : ℤ) + 2 := by
    rw [Int.ceil_eq_iff] <;> constructor <;> push_cast <;> linarith
  rw [hc]
  omega

/-- The azimuth scan has `a + 2` entries. -/
theorem yScan_length (a : ℕ) (ha : 1 ≤ a) : (yScan a).length = a + 2 := by
  rw [yScan, arangeQ_length, yScan_count a ha]

/-- Entries of the azimuth scan, expressed through `azBucketLower`. -/
theorem yScan_getD (a : ℕ) (ha : 1 ≤ a) (k : ℕ) (hk : k < a + 2) :
    (yScan a).getD k 0 = azBucketLower a k := by
  rw [yScan, arangeQ_getD]
  · unfold azBucketLower
    rw [delta_a_eq]
    ring
  · rw [yScan_count a ha]
    omega

/-- Characterization of the stored `_height_round`: because the loop's `else`
branch overwrites earlier assignments, only the final iteration matters, and
the stored value is `90` when the tilt lies in `[90 - 45/h, 150)` and `0`
otherwise. -/
theorem heightRound_char (a h : ℕ) (hh : 1 ≤ h) (height azimuth : ℚ) :
    (set_azimuth_and_zenith_solar_radiation a h height azimuth).heightRound =
      if 90 - 45 / (h : ℚ) ≤ height ∧ height < 150 then 90 else 0 := by
  have hq1 : (1 : ℚ) ≤ (h : ℚ) := by exact_mod_cast hh
  have hδpos : 0 < delta_hQ h := by
    rw [delta_h_eq]
    positivity
  have hδle : delta_hQ h ≤ 45 := by
    rw [delta_h_eq, div_le_iff (by linarith)]
    nlinarith
  unfold set_azimuth_and_zenith_solar_radiation
  dsimp only
  rw [xScan_length h hh]
  rw [show h + 2 - 1 = h + 1 from rfl]
  rw [foldl_ignore_acc (fun n => heightIter (xScan h) height n) 0 h]
  unfold heightIter
  rw [xScan_getD h hh h (by omega), xScan_getD h hh (h + 1) (by omega),
    xScan_getLast h hh]
  have e1 : -delta_hQ h + (h : ℚ) * (2 * delta_hQ h) = 90 - delta_hQ h := by
    linear_combination h_mul_delta h hh
  have e2 : -delta_hQ h + ((h : ℕ) + 1 : ℕ) * (2 * delta_hQ h) = 90 + delta_hQ h := by
    push_cast
    linear_combination h_mul_delta h hh
  rw [e1, e2]
  have e3 : (90 - delta_hQ h + (90 + delta_hQ h)) / 2 = (90 : ℚ) := by ring
  rw [e3]
  have e4 : pyint 90 = 90 := by
    unfold pyint
    rw [if_pos (by norm_num), show (90 : ℚ) = ((90 : ℤ) : ℚ) by norm_num,
      Int.floor_intCast]
  rw [e4, ← delta_h_eq]
  by_cases hC : 90 - delta_hQ h ≤ height ∧ height < 150
  · rw [if_pos hC]
    by_cases hA : height < 90 + delta_hQ h
    · rw [if_pos ⟨hC.1, hA⟩]
    · rw [if_neg (fun hA' => hA hA'.2), if_pos ⟨not_lt.mp hA, hC.2⟩]
  · rw [if_neg hC, if_neg (fun hA => hC ⟨hA.1, by linarith [hA.2]⟩),
      if_neg (fun hB => hC ⟨by linarith [hB.1], hB.2⟩)]

/-- When the stored `_height_round` is `0`, the final
`if self._height_round == 0` branch stores `_azimuth_round = 0`. -/
theorem azimuth_zero_of_height_zero (a h : ℕ) (height azimuth : ℚ)
    (h0 : (set_azimuth_and_zenith_solar_radiation a h height azimuth).heightRound = 0) :
    (set_azimuth_and_zenith_solar_radiation a h height azimuth).azimuthRound = some 0 := by
  unfold set_azimuth_and_zenith_solar_radiation at h0 ⊢
  dsimp only at h0 ⊢
  rw [if_pos h0]

/-- The azimuth loop assigns only on a bucket match, so when exactly one
index of the scan matches, the fold returns that bucket's stored center
whatever the initial accumulator. -/
theorem azFold_eq (y : List ℚ) (az : ℚ) (k m : ℕ) (hm : m < k)
    (hcond : y.getD m 0 ≤ az ∧ az < y.getD (m + 1) 0)
    (huniq : ∀ n, n < k → y.getD n 0 ≤ az → az < y.getD (n + 1) 0 → n = m) :
    ∀ acc, (List.range k).foldl (azimuthIter y az) acc =
      some (if pyint ((y.getD m 0 + y.getD (m + 1) 0) / 2) = 180 then -180
            else pyint ((y.getD m 0 + y.getD (m + 1) 0) / 2)) := by
  induction k with
  | zero => omega
  | succ j ih =>
    intro acc
    rw [List.range_succ, List.foldl_append]
    simp only [List.foldl_cons, List.foldl_nil]
    by_cases hmj : m = j
    · subst hmj
      unfold azimuthIter
      rw [if_pos hcond]
    · have hmj' : m < j := by omega
      have hne : ¬(y.getD j 0 ≤ az ∧ az < y.getD (j + 1) 0) := fun hcj =>
        hmj (huniq j (by omega) hcj.1 hcj.2).symm
      conv =>
        lhs
        rw [show azimuthIter y az (List.foldl (azimuthIter y az) acc (List.range j)) j
            = List.foldl (azimuthIter y az) acc (List.range j) by
          unfold azimuthIter; rw [if_neg hne]]
      exact ih hmj' (fun n hn => huniq n (by omega)) acc

/-- Every azimuth in `[-180, 180)` lies in exactly one bucket of the scan. -/
theorem az_bucket_exists (a : ℕ) (ha : 1 ≤ a) (az : ℚ)
    (hlb : -180 ≤ az) (hub : az < 180) :
    ∃ m : ℕ, m < a + 1 ∧ azBucketLower a m ≤ az ∧ az < azBucketLower a (m + 1) ∧
      ∀ n : ℕ, azBucketLower a n ≤ az → az < azBucketLower a (n + 1) → n = m := by
  have haq : (0 : ℚ) < (a : ℚ) := by exact_mod_cast Nat.lt_of_lt_of_le Nat.zero_lt_one ha
  have hwpos : (0 : ℚ) < 360 / (a : ℚ) := by positivity
  set t : ℚ := (az + 180 + 180 / (a : ℚ)) / (360 / (a : ℚ)) with hts
  have h180a : (0 : ℚ) < 180 / (a : ℚ) := by positivity
  have htpos : 0 ≤ t := by
    apply div_nonneg _ (le_of_lt hwpos)
    linarith
  have hfl0 : 0 ≤ ⌊t⌋ := Int.floor_nonneg.mpr htpos
  have htub : t < (a : ℚ) + 1/2 := by
    rw [hts, div_lt_iff hwpos]
    have : ((a : ℚ) + 1/2) * (360 / (a : ℚ)) = 360 + 180 / (a : ℚ) := by
      field_simp
      ring
    rw [this]
    linarith
  have hm_le : ⌊t⌋ ≤ (a : ℤ) := by
    have h1 : (⌊t⌋ : ℚ) ≤ t := Int.floor_le t
    have h2 : (⌊t⌋ : ℚ) < (a : ℚ) + 1 := by linarith
    exact_mod_cast Int.lt_add_one_iff.mp (by exact_mod_cast h2)
  have hcast : ((⌊t⌋.toNat : ℕ) : ℚ) = (⌊t⌋ : ℚ) := by
    exact_mod_cast Int.toNat_of_nonneg hfl0
  have hlow : ∀ n : ℕ, azBucketLower a n = -180 - 180 / (a : ℚ) + n * (360 / (a : ℚ)) :=
    fun n => rfl
  have hiff : ∀ n : ℕ, (azBucketLower a n ≤ az ∧ az < azBucketLower a (n + 1)) ↔
      ((n : ℚ) ≤ t ∧ t < (n : ℚ) + 1) := by
    intro n
    rw [hlow n, hlow (n + 1)]
    push_cast
    constructor
    · rintro ⟨hl, hr⟩
      constructor
      · rw [hts, le_div_iff hwpos]
        linarith
      · rw [hts, div_lt_iff hwpos]
        have expand : ((n : ℚ) + 1) * (360 / (a : ℚ))
            = (n : ℚ) * (360 / (a : ℚ)) + 360 / (a : ℚ) := by ring
        rw [expand]
        linarith
    · rintro ⟨hl, hr⟩
      rw [hts, le_div_iff hwpos] at hl
      rw [hts, div_lt_iff hwpos] at hr
      constructor
      · linarith
      · have expand : ((n : ℚ) + 1) * (360 / (a : ℚ))
            = (n : ℚ) * (360 / (a : ℚ)) + 360 / (a : ℚ) := by ring
        rw [expand] at hr
        linarith
  refine ⟨⌊t⌋.toNat, ?_, ?_, ?_, ?_⟩
  · omega
  · refine ((hiff ⌊t⌋.toNat).mpr ⟨?_, ?_⟩).1
    · rw [hcast]
      exact Int.floor_le t
    · rw [hcast]
      exact Int.lt_floor_add_one t
  · refine ((hiff ⌊t⌋.toNat).mpr ⟨?_, ?_⟩).2
    · rw [hcast]
      exact Int.floor_le t
    · rw [hcast]
      exact Int.lt_floor_add_one t
  · intro n hn1 hn2
    have hnt := (hiff n).mp ⟨hn1, hn2⟩
    have : ⌊t⌋ = (n : ℤ) := by
      rw [Int.floor_eq_iff]
      exact_mod_cast hnt
    omega

/-- Characterization of the stored `_azimuth_round` when `_height_round` is
nonzero: the truncated center of the unique azimuth bucket containing the
azimuth. -/
theorem azimuthRound_char (a h : ℕ) (ha : 1 ≤ a) (height azimuth : ℚ)
    (hlb : -180 ≤ azimuth) (hub : azimuth < 180)
    (hnz : (set_azimuth_and_zenith_solar_radiation a h height azimuth).heightRound ≠ 0) :
    ∃ n : ℕ, n < a + 1 ∧ azBucketLower a n ≤ azimuth ∧
      azimuth < azBucketLower a (n + 1) ∧
      (set_azimuth_and_zenith_solar_radiation a h height azimuth).azimuthRound
        = some (azBucketCenter a n) := by
  obtain ⟨m, hma, hc1, hc2, huniq⟩ := az_bucket_exists a ha azimuth hlb hub
  refine ⟨m, hma, hc1, hc2, ?_⟩
  unfold set_azimuth_and_zenith_solar_radiation at hnz ⊢
  dsimp only at hnz ⊢
  rw [if_neg hnz]
  rw [yScan_length a ha, show a + 2 - 1 = a + 1 from rfl]
  have hg1 : (yScan a).getD m 0 = azBucketLower a m := yScan_getD a ha m (by omega)
  have hg2 : (yScan a).getD (m + 1) 0 = azBucketLower a (m + 1) :=
    yScan_getD a ha (m + 1) (by omega)
  rw [azFold_eq (yScan a) azimuth (a + 1) m hma
    (by rw [hg1, hg2]; exact ⟨hc1, hc2⟩)
    (fun n hn hl hr => by
      refine huniq n ?_ ?_
      · rwa [yScan_getD a ha n (by omega)] at hl
      · rwa [yScan_getD a ha (n + 1) (by omega)] at hr)]
  have hmid : ((yScan a).getD m 0 + (yScan a).getD (m + 1) 0) / 2
      = -180 + (m : ℚ) * (360 / (a : ℚ)) := by
    rw [hg1, hg2]
    unfold azBucketLower
    push_cast
    ring
  rw [hmid]
  rfl

/-- C1 counterexample: with `height_subdivisions = 3`, `azimuth_subdivisions
= 8`, a surface of tilt 40° and azimuth −90° stores the discretized pair
`(0, 0)`.  `0` is not the center of any bucket of width `180/3 = 60`
containing the tilt 40 (such a center lies within 30 of it) — nor, for that
matter, of the code's actual bucket width `90/3 = 30` — and `0` is not the
center of any bucket of width `360/8 = 45` containing the azimuth −90. -/
theorem C1_solar_counterexample :
    (set_azimuth_and_zenith_solar_radiation 8 3 40 (-90)).heightRound = 0 ∧
    (set_azimuth_and_zenith_solar_radiation 8 3 40 (-90)).azimuthRound = some 0 ∧
    ¬(|(0 : ℚ) - 40| ≤ (180 / 3) / 2) ∧ ¬(|(0 : ℚ) - (-90)| ≤ (360 / 8) / 2) := by
  have h0 : (set_azimuth_and_zenith_solar_radiation 8 3 40 (-90)).heightRound = 0 := by
    rw [heightRound_char 8 3 (by norm_num) 40 (-90)]
    norm_num
  exact ⟨h0, azimuth_zero_of_height_zero 8 3 40 (-90) h0, by norm_num, by norm_num⟩

/-- C1 amended: for `1 ≤ h ≤ 50` and `1 ≤ a ≤ 100` (the setter bounds) and a
surface azimuth in `[-180, 180)` (the range `_set_azimuth_and_zenith`
produces), the stored `_height_round` is `90` when the tilt lies in
`[90 - 45/h, 150)` and `0` otherwise (the height loop's `else` branch
overwrites the bucket centers computed with width `90/h`, not the claimed
`180/h`); the stored `_azimuth_round` is `0` whenever `_height_round` is `0`,
and otherwise it is the truncated center (`int()`, with `180` mapped to
`-180`) of the unique width-`360/a` bucket containing the azimuth. -/
theorem C1_solar_discretization_amended (a h : ℕ) (ha : 1 ≤ a) (hh : 1 ≤ h)
    (height azimuth : ℚ) (hlb : -180 ≤ azimuth) (hub : azimuth < 180) :
    (set_azimuth_and_zenith_solar_radiation a h height azimuth).heightRound
      = (if 90 - 45 / (h : ℚ) ≤ height ∧ height < 150 then 90 else 0) ∧
    ((set_azimuth_and_zenith_solar_radiation a h height azimuth).heightRound = 0 →
      (set_azimuth_and_zenith_solar_radiation a h height azimuth).azimuthRound
        = some 0) ∧
    ((set_azimuth_and_zenith_solar_radiation a h height azimuth).heightRound ≠ 0 →
      ∃ n : ℕ, n < a + 1 ∧ azBucketLower a n ≤ azimuth ∧
        azimuth < azBucketLower a (n + 1) ∧
        (set_azimuth_and_zenith_solar_radiation a h height azimuth).azimuthRound
          = some (azBucketCenter a n)) :=
  ⟨heightRound_char a h hh height azimuth,
   azimuth_zero_of_height_zero a h height azimuth,
   azimuthRound_char a h ha height azimuth hlb hub⟩

/-- Witness for C1 at `a = 8`, `h = 3`, tilt 90 (a vertical wall), azimuth
100: the stored `_height_round` evaluates to 90. -/
theorem C1_solar_discretization_amended_witness :
    (set_azimuth_and_zenith_solar_radiation 8 3 90 100).heightRound = 90 := by
  rw [(C1_solar_discretization_amended 8 3 (by norm_num) (by norm_num) 90 100
    (by norm_num) (by norm_num)).1]
  norm_num

/-- C9: a `People` load with unit `"W/m2"`, nominal value 10,
`fraction_latent = 0.45`, `fraction_radiant = 0.3`, `fraction_convective = 0.7`
and schedule `[0.1, 0.2, 0.3, 0.5]`, queried with `area = 2`, yields the
convective series `[0.385, 0.77, 1.155, 1.925] * 2 = [0.77, 1.54, 2.31, 3.85]`
and the radiant series `[0.165, 0.33, 0.495, 0.825] * 2 = [0.33, 0.66, 0.99, 1.65]`
exactly (so in particular to within `1e-5`). -/
theorem C9_people_load_roundtrip :
    People.getConvectiveLoad ⟨10, "W/m2", 9/20, 3/10, 7/10, 110, [1/10, 2/10, 3/10, 5/10]⟩ (some 2)
      = some [77/100, 154/100, 231/100, 385/100] ∧
    People.getRadiantLoad ⟨10, "W/m2", 9/20, 3/10, 7/10, 110, [1/10, 2/10, 3/10, 5/10]⟩ (some 2)
      = some [33/100, 66/100, 99/100, 165/100] := by
  have hpx : ¬"W/m2" = "px" ∧ ¬"W/m2" = "px/m2" := by constructor <;> decide
  refine ⟨?_, ?_⟩ <;>
    norm_num [People.getConvectiveLoad, People.getRadiantLoad,
      People.nominalValueAbsolute, People.calculationMethod, hpx.1, hpx.2]

/-- C10: the `absorptance` property getter of `Material` returns
`self._spec_heat`, so after a successful in-bounds assignment
`absorptance = v` (which stores `v` in `self._absorptance`) a read of
`absorptance` returns the specific heat, which differs from `v` whenever
`v ≠ spec_heat`. -/
theorem C10_absorptance_reads_spec_heat (limits : ℚ × ℚ) (m m' : MaterialM) (v : ℚ)
    (h : m.setAbsorptance limits v = .ok m') :
    m'.absorptance = m.spec_heat ∧ m'.absorptanceStored = some v ∧
      (v ≠ m.spec_heat → m'.absorptance ≠ v) := by
  unfold MaterialM.setAbsorptance at h
  split at h
  · exact absurd h (by simp)
  · cases h
    refine ⟨rfl, rfl, fun hne => ?_⟩
    simpa [MaterialM.absorptance] using fun hc => hne hc.symm

/-- Witness for C10 at a concrete material (`spec_heat = 1000`) and the
in-bounds value `v = 0.3` with `material_limits["absorptance"] = (0, 1)`. -/
theorem C10_absorptance_reads_spec_heat_witness :
    MaterialM.absorptance ⟨1/10, 1, 1000, 1000, some (3/10)⟩ ≠ (3/10 : ℚ) :=
  (C10_absorptance_reads_spec_heat (0, 1) ⟨1/10, 1, 1000, 1000, none⟩ _ (3/10)
    (by norm_num [MaterialM.setAbsorptance])).2.2 (by norm_num)

/-- C7 counterexample: the claim confines acceptance to `[0, 0.999)`, but the
source's check `value < 0.0 or value > 0.999` accepts the boundary value
`wwr = 0.999` (and computes the areas from it), so `0.999` lies outside the
claimed half-open interval yet the setter succeeds. -/
theorem C7_wwr_counterexample :
    Surface.setWwr 10 (999/1000) = .ok (999/1000, 1/100, 999/100) ∧
      (999 : ℚ)/1000 ∉ Set.Ico (0 : ℚ) (999/1000) := by
  refine ⟨by norm_num [Surface.setWwr], ?_⟩
  simp [Set.mem_Ico]

/-- C7 amended: setting the window-to-wall ratio succeeds exactly on the
closed interval `[0, 0.999]`, returning `opaque_area = (1-wwr)*area` and
`glazed_area = wwr*area`; every value outside that interval is rejected with
`WindowToWallRatioOutsideBoundaries`. -/
theorem C7_wwr_amended (area v : ℚ) :
    (0 ≤ v ∧ v ≤ 999/1000 →
      Surface.setWwr area v = .ok (v, (1 - v) * area, v * area)) ∧
    (¬(0 ≤ v ∧ v ≤ 999/1000) →
      Surface.setWwr area v = .error .windowToWallRatioOutsideBoundaries) := by
  constructor <;> intro h <;> unfold Surface.setWwr
  · rw [if_neg]
    push_neg
    exact ⟨h.1, h.2⟩
  · rw [if_pos]
    push_neg at h
    by_cases h0 : 0 ≤ v
    · exact Or.inr (h h0)
    · exact Or.inl (lt_of_not_le h0)

/-- Witness for C7 at `area = 2`, `wwr = 1/2`. -/
theorem C7_wwr_amended_witness :
    Surface.setWwr 2 (1/2) = .ok (1/2, (1 - 1/2) * 2, (1/2) * 2) :=
  (C7_wwr_amended 2 (1/2)).1 (by norm_num)

/-- C5 counterexample: the claim says a negative input is stored as the floor
`1e-5`; the source stores `abs(value)` (only flooring when `abs(value) < 1e-5`),
so the assignment `volume = -10` stores `10`, not `1e-5` (the negative-input
message is logged — via `logging.error`, not a warning). -/
theorem C5_store_counterexample :
    ThermalZone.storeFloored (-10) = (10, true) ∧ (10 : ℚ) ≠ 1 / 10 ^ 5 := by
  refine ⟨?_, by norm_num⟩
  norm_num [ThermalZone.storeFloored]

/-- C5 amended: the `_volume` / `_net_floor_area` setters always store a
strictly positive value: inputs with `|v| < 1e-5` (in particular zero) are
floored to `1e-5`, any other input is stored as its absolute value (so a
negative input v stores `|v|`, not `1e-5`), and the negative-input message
(emitted with `logging.error`) is logged exactly when `v < 0`.  Both
construction paths assign through these same property setters. -/
theorem C5_store_amended (v : ℚ) :
    0 < (ThermalZone.storeFloored v).1 ∧
    (|v| < 1 / 10 ^ 5 → (ThermalZone.storeFloored v).1 = 1 / 10 ^ 5) ∧
    (1 / 10 ^ 5 ≤ |v| → (ThermalZone.storeFloored v).1 = |v|) ∧
    ((ThermalZone.storeFloored v).2 = true ↔ v < 0) := by
  unfold ThermalZone.storeFloored
  refine ⟨?_, ?_, ?_, by simp⟩
  · split
    · norm_num
    · simp only []
      next hle => exact lt_of_lt_of_le (by norm_num) (not_lt.mp hle)
  · intro hlt
    rw [if_pos hlt]
  · intro hle
    rw [if_neg (not_lt.mpr hle)]

/-- Witness for C5 at the concrete input `v = -10`. -/
theorem C5_store_amended_witness :
    (ThermalZone.storeFloored (-10)).1 = |(-10 : ℚ)| :=
  (C5_store_amended (-10)).2.2.1 (by norm_num)

/-- C8 counterexample: `Schedule.__init__` runs the `schedule_type` setter
before any array check, and that setter admits only the all-lowercase
`schedule_types["unit_type"]` entries; so the `"Percent"`-typed length-1
schedule `[2]` against a configured length of 4 raises `InvalidScheduleType`
— neither the length-mismatch error the claim demands at that input nor a
boundary error.  Moreover the program's actual percent type is the lowercase
`"percent"`, which never triggers the limit setters' `== "Percent"` clamp:
the `"percent"` schedule `[2, 2, 2, 2]` with 4 configured steps constructs
successfully although `2` lies outside `[0, 1]`. -/
theorem C8_schedule_counterexample :
    Schedule.init "Percent" none none 1 [2] 4 = .error .invalidScheduleType ∧
    ScheduleError.invalidScheduleType ≠ .scheduleLengthNotConsistent ∧
    [(2 : ℚ)].length ≠ 4 ∧
    Schedule.init "percent" none none 1 [2, 2, 2, 2] 4 = .ok [2, 2, 2, 2] ∧
    ¬((2 : ℚ) ≤ 1) := by
  have hpc : ("Percent" : String) ∉ schedule_types_unit_type := by decide
  have hpc2 : ("percent" : String) ∈ schedule_types_unit_type := by decide
  have hne : ¬("percent" = "Percent") := by decide
  have hup : Schedule.upperLimit "percent" none = 10 ^ 20 := by
    unfold Schedule.upperLimit
    rw [if_neg hne]
    rfl
  have hlo : Schedule.lowerLimit "percent" none = -(10 ^ 20) := by
    unfold Schedule.lowerLimit
    rw [if_neg hne]
    rfl
  refine ⟨?_, by decide, by decide, ?_, by norm_num⟩
  · unfold Schedule.init
    rw [if_pos hpc]
  · unfold Schedule.init
    rw [if_neg (not_not_intro hpc2)]
    unfold Schedule.set
    rw [hup, hlo, if_neg (by omega), if_neg, if_neg, if_neg]
    · norm_num
    · push_neg
      intro v hv
      rcases List.mem_cons.mp hv with h | hv <;>
        [skip; rcases List.mem_cons.mp hv with h | hv] <;>
        [skip; skip; rcases List.mem_cons.mp hv with h | hv] <;>
        [skip; skip; skip; rcases List.mem_singleton.mp hv with h] <;>
        subst h <;> norm_num
    · push_neg
      intro v hv
      rcases List.mem_cons.mp hv with h | hv <;>
        [skip; rcases List.mem_cons.mp hv with h | hv] <;>
        [skip; skip; rcases List.mem_cons.mp hv with h | hv] <;>
        [skip; skip; skip; rcases List.mem_singleton.mp hv with h] <;>
        subst h <;> norm_num

/-- C8 amended: `Schedule` construction first validates `schedule_type`
against the all-lowercase list `schedule_types["unit_type"]` and raises
`InvalidScheduleType` for any other string — in particular for the
capitalized `"Percent"`, so no `"Percent"`-typed schedule is constructible
and the limit setters' `== "Percent"` clamp is dead code: every valid type
keeps the caller-supplied limits (or the `±1e20` defaults), so no type
enforces `[0, 1]` bounds.  For a valid type, a multi-dimensional array
always raises `InvalidScheduleDimension`, and `ScheduleLengthNotConsistent`
is raised exactly when the length differs from the configured
`number_of_time_steps_year` *and* the array is 1-dimensional *and* all
values lie within the effective limits (the dimension and boundary checks
run first). -/
theorem C8_schedule_amended (stype : String) (lo up : Option ℚ) (ndim : ℕ)
    (data : List ℚ) (n : ℕ) :
    (stype ∉ schedule_types_unit_type →
      Schedule.init stype lo up ndim data n = .error .invalidScheduleType) ∧
    ("Percent" : String) ∉ schedule_types_unit_type ∧
    (stype ∈ schedule_types_unit_type →
      Schedule.lowerLimit stype lo = lo.getD (-(10 ^ 20)) ∧
      Schedule.upperLimit stype up = up.getD (10 ^ 20)) ∧
    (stype ∈ schedule_types_unit_type → 1 < ndim →
      Schedule.init stype lo up ndim data n = .error .invalidScheduleDimension) ∧
    (stype ∈ schedule_types_unit_type → ndim ≤ 1 →
      (Schedule.init stype lo up ndim data n = .error .scheduleLengthNotConsistent ↔
        (data.length ≠ n ∧ ∀ v ∈ data,
          Schedule.lowerLimit stype lo ≤ v ∧ v ≤ Schedule.upperLimit stype up))) := by
  refine ⟨fun hbad => ?_, by decide, fun hm => ?_, fun hm hd => ?_, fun hm hnd => ?_⟩
  · unfold Schedule.init
    rw [if_pos hbad]
  · have hne : ¬(stype = "Percent") := by
      fin_cases hm <;> decide
    constructor
    · unfold Schedule.lowerLimit
      rw [if_neg hne]
    · unfold Schedule.upperLimit
      rw [if_neg hne]
  · unfold Schedule.init
    rw [if_neg (not_not_intro hm)]
    unfold Schedule.set
    rw [if_pos hd]
  · unfold Schedule.init
    rw [if_neg (not_not_intro hm)]
    unfold Schedule.set
    rw [if_neg (by omega)]
    constructor
    · intro h
      split_ifs at h with h1 h2 h3
      · exact absurd h (by simp)
      · exact absurd h (by simp)
      · push_neg at h1 h2
        exact ⟨h3, fun v hv => ⟨h2 v hv, h1 v hv⟩⟩
    · rintro ⟨hlen, hbnd⟩
      rw [if_neg, if_neg, if_pos hlen]
      · push_neg
        exact fun v hv => (hbnd v hv).1
      · push_neg
        exact fun v hv => (hbnd v hv).2

/-- Witness for C8: a `"temperature"` schedule (a valid, constructible type)
of length 2 with in-bounds values against a configured length of 4 raises
the length-mismatch error. -/
theorem C8_schedule_amended_witness :
    Schedule.init "temperature" (some 0) (some 10) 1 [5, 6] 4
      = .error .scheduleLengthNotConsistent :=
  ((C8_schedule_amended "temperature" (some 0) (some 10) 1 [5, 6] 4).2.2.2.2
    (by decide) (by norm_num)).mpr
    ⟨by norm_num, by
      intro v hv
      rcases List.mem_pair.mp hv with h | h <;>
        simp [h, Schedule.lowerLimit, Schedule.upperLimit] <;> norm_num⟩

/-- C6: the claim (and the constructor's own docstring, "If not provided
autocalculate") says a `Surface` constructed without a `surface_type` infers
it from the tilt; but the assignment and the `_set_auto_surface_type` call are
commented out in `Surface.__init__`, so the attribute is never set (reading it
raises `AttributeError`), while the inference function itself would give
`"Roof"` for the horizontal surface of tilt 0. -/
theorem C6_surface_type_not_inferred :
    Surface.init 0 0 1 none none none = .ok ⟨1, 0, 0, 0, 1, 0, none, none⟩ ∧
    Surface.set_auto_surface_type 0 = "Roof" := by
  constructor
  · norm_num [Surface.init, Surface.setArea, Surface.setWwr, bind, Except.bind,
      pure, Except.pure]
  · norm_num [Surface.set_auto_surface_type]

/-- C3: whenever `_ISO13790_params` completes, the stored parameters satisfy
`Am = Cm²/DenAm`, `Htr_ms = 9.1·Am`, `Htr_em = 1/(1/Htr_op - 1/Htr_ms)`,
`Htr_is = 3.45·Atot`, `UA_tot = Htr_op + Htr_w`, with the fixed film
coefficients `htr_ms = 9.1` and `h_is = 3.45` (here `9.1 = 91/10` and
`3.45 = 69/20`). -/
theorem C3_iso_final_params (surfs : List SurfaceTZ) (p : ISOParams)
    (h : ISO13790_params surfs = some p) :
    p.Am = p.Cm ^ 2 / p.DenAm ∧ p.Htr_ms = 91/10 * p.Am ∧
    p.Htr_em = 1 / (1 / p.Htr_op - 1 / p.Htr_ms) ∧ p.Htr_is = 69/20 * p.Atot ∧
    p.UA_tot = p.Htr_op + p.Htr_w ∧ p.htr_ms = 91/10 ∧ p.h_is = 69/20 := by
  unfold ISO13790_params at h
  cases hl : isoLoop surfs ⟨0, 0, 0, 0, 0⟩ with
  | none => rw [hl] at h; exact absurd h (by simp)
  | some acc =>
    rw [hl] at h
    simp only [Option.map_some'] at h
    injection h with h
    subst h
    exact ⟨rfl, mul_comm _ _, rfl, rfl, rfl, rfl, rfl⟩

/-- `isoBase` leaves `Htr_op` unchanged. -/
theorem isoBase_Htr_op (s : SurfaceTZ) (c : ConstructionM) (st : String) (acc : ISOAcc) :
    (isoBase s c st acc).Htr_op = acc.Htr_op := by
  unfold isoBase
  split <;> rfl

/-- `isoBase` leaves `Htr_w` unchanged. -/
theorem isoBase_Htr_w (s : SurfaceTZ) (c : ConstructionM) (st : String) (acc : ISOAcc) :
    (isoBase s c st acc).Htr_w = acc.Htr_w := by
  unfold isoBase
  split <;> rfl

/-- One `_ISO13790_params` iteration adds `htrOpTerm` to `Htr_op` and
`isoHtrWTerm` to `Htr_w`. -/
theorem isoStep_sums (s : SurfaceTZ) (acc acc' : ISOAcc)
    (h : isoStep s acc = some acc') :
    acc'.Htr_op = acc.Htr_op + htrOpTerm s ∧
    acc'.Htr_w = acc.Htr_w + isoHtrWTerm s := by
  obtain ⟨stO, ar, oa, ga, co, wi, rc⟩ := s
  cases stO with
  | none => exact absurd h (by simp [isoStep])
  | some st =>
    cases co with
    | none => exact absurd h (by simp [isoStep])
    | some c =>
      simp only [isoStep] at h
      by_cases hout : SurfaceTZ.isOuterType st
      · rw [if_pos hout] at h
        by_cases hga : 0 < ga
        · rw [if_pos hga] at h
          cases wi with
          | none => exact absurd h (by simp)
          | some w =>
            simp only [Option.some.injEq] at h
            subst h
            constructor <;>
              simp [htrOpTerm, isoHtrWTerm, isoBase_Htr_op, isoBase_Htr_w, hout, hga]
        · rw [if_neg hga] at h
          simp only [Option.some.injEq] at h
          subst h
          cases wi <;> constructor <;>
            simp [htrOpTerm, isoHtrWTerm, isoBase_Htr_op, isoBase_Htr_w, hout, hga]
      · rw [if_neg hout] at h
        simp only [Option.some.injEq] at h
        subst h
        cases wi <;> constructor <;>
          simp [htrOpTerm, isoHtrWTerm, isoBase_Htr_op, isoBase_Htr_w, hout]

/-- The `_ISO13790_params` loop accumulates the `htrOpTerm` and
`isoHtrWTerm` sums. -/
theorem isoLoop_sums (surfs : List SurfaceTZ) : ∀ acc acc',
    isoLoop surfs acc = some acc' →
    acc'.Htr_op = acc.Htr_op + (surfs.map htrOpTerm).sum ∧
    acc'.Htr_w = acc.Htr_w + (surfs.map isoHtrWTerm).sum := by
  induction surfs with
  | nil =>
    intro acc acc' h
    simp only [isoLoop, Option.some.injEq] at h
    subst h
    simp
  | cons s rest ih =>
    intro acc acc' h
    simp only [isoLoop] at h
    cases hs : isoStep s acc with
    | none => rw [hs] at h; exact absurd h (by simp)
    | some acc1 =>
      rw [hs] at h
      simp only [Option.some_bind] at h
      obtain ⟨h1, h2⟩ := ih acc1 acc' h
      obtain ⟨g1, g2⟩ := isoStep_sums s acc acc1 hs
      constructor <;> simp only [List.map_cons, List.sum_cons]
      · rw [h1, g1]; ring
      · rw [h2, g2]; ring

/-- One `_VDI6007_params` iteration appends the `htrOpTerm` entry to `HAW_v`,
the `vdiHtrWTerm` entry to `HAF_v`, and the three area entries. -/
theorem vdiStep_sums (s : SurfaceTZ) (acc acc' : VDIAcc)
    (h : vdiStep s acc = some acc') :
    acc'.HAW_v.sum = acc.HAW_v.sum + htrOpTerm s ∧
    acc'.HAF_v.sum = acc.HAF_v.sum + vdiHtrWTerm s ∧
    acc'.AreaAW.sum = acc.AreaAW.sum + outerOpaqueTerm s ∧
    acc'.AreaAF.sum = acc.AreaAF.sum + outerGlazedTerm s ∧
    acc'.AreaIW.sum = acc.AreaIW.sum + innerAreaTerm s := by
  obtain ⟨stO, ar, oa, ga, co, wi, rc⟩ := s
  cases stO with
  | none => exact absurd h (by simp [vdiStep])
  | some st =>
    simp only [vdiStep] at h
    by_cases hout : SurfaceTZ.isOuterType st
    · rw [if_pos hout] at h
      cases co with
      | none => exact absurd h (by simp)
      | some c =>
        have hnin : ¬ SurfaceTZ.isInnerType st := by
          rcases hout with h' | h' | h' <;> subst h' <;> decide
        cases wi with
        | some w =>
          simp only [Option.some.injEq] at h
          subst h
          refine ⟨?_, ?_, ?_, ?_, ?_⟩ <;>
            simp [vdiStepOuter, htrOpTerm, vdiHtrWTerm, outerOpaqueTerm,
              outerGlazedTerm, innerAreaTerm, hout, hnin, mul_comm]
        | none =>
          simp only [Option.some.injEq] at h
          subst h
          refine ⟨?_, ?_, ?_, ?_, ?_⟩ <;>
            simp [vdiStepOuter, htrOpTerm, vdiHtrWTerm, outerOpaqueTerm,
              outerGlazedTerm, innerAreaTerm, hout, hnin, mul_comm]
    · rw [if_neg hout] at h
      by_cases hin : SurfaceTZ.isInnerType st
      · rw [if_pos hin] at h
        cases co with
        | none => exact absurd h (by simp)
        | some c =>
          simp only [Option.some.injEq] at h
          subst h
          refine ⟨?_, ?_, ?_, ?_, ?_⟩ <;> cases wi <;>
            simp [htrOpTerm, vdiHtrWTerm, outerOpaqueTerm,
              outerGlazedTerm, innerAreaTerm, hout, hin]
      · rw [if_neg hin] at h
        exact absurd h (by simp)

/-- The `_VDI6007_params` loop accumulates the same `Htr_op` sum as the ISO
loop, the `vdiHtrWTerm` sum, and the three area totals. -/
theorem vdiLoop_sums (surfs : List SurfaceTZ) : ∀ acc acc',
    vdiLoop surfs acc = some acc' →
    acc'.HAW_v.sum = acc.HAW_v.sum + (surfs.map htrOpTerm).sum ∧
    acc'.HAF_v.sum = acc.HAF_v.sum + (surfs.map vdiHtrWTerm).sum ∧
    acc'.AreaAW.sum = acc.AreaAW.sum + outerOpaqueArea surfs ∧
    acc'.AreaAF.sum = acc.AreaAF.sum + outerGlazedArea surfs ∧
    acc'.AreaIW.sum = acc.AreaIW.sum + innerTotalArea surfs := by
  induction surfs with
  | nil =>
    intro acc acc' h
    simp only [vdiLoop, Option.some.injEq] at h
    subst h
    simp [outerOpaqueArea, outerGlazedArea, innerTotalArea]
  | cons s rest ih =>
    intro acc acc' h
    simp only [vdiLoop] at h
    cases hs : vdiStep s acc with
    | none => rw [hs] at h; exact absurd h (by simp)
    | some acc1 =>
      rw [hs] at h
      simp only [Option.some_bind] at h
      obtain ⟨h1, h2, h3, h4, h5⟩ := ih acc1 acc' h
      obtain ⟨g1, g2, g3, g4, g5⟩ := vdiStep_sums s acc acc1 hs
      refine ⟨?_, ?_, ?_, ?_, ?_⟩ <;>
        simp only [List.map_cons, List.sum_cons, outerOpaqueArea,
          outerGlazedArea, innerTotalArea]
      · rw [h1, g1]; ring
      · rw [h2, g2]; ring
      · rw [h3, g3]; unfold outerOpaqueArea; ring
      · rw [h4, g4]; unfold outerGlazedArea; ring
      · rw [h5, g5]; unfold innerTotalArea; ring

/-- The per-surface ISO and VDI `Htr_w` contributions agree whenever the
glazed area is nonnegative. -/
theorem htrW_term_eq (s : SurfaceTZ) (hg : 0 ≤ s.glazedArea) :
    isoHtrWTerm s = vdiHtrWTerm s := by
  obtain ⟨stO, ar, oa, ga, co, wi, rc⟩ := s
  simp only at hg
  cases stO with
  | none => cases wi <;> simp [isoHtrWTerm, vdiHtrWTerm]
  | some st =>
    cases wi with
    | none => simp [isoHtrWTerm, vdiHtrWTerm]
    | some w =>
      simp only [isoHtrWTerm, vdiHtrWTerm]
      by_cases hout : SurfaceTZ.isOuterType st
      · simp only [hout, true_and, if_true]
        rcases eq_or_lt_of_le hg with hga | hga
        · simp [← hga]
        · simp [hga, mul_comm]
      · simp [hout]

/-- C4: when both parameter builds complete on the same surface list (and
every glazed area is nonnegative, as the `_wwr` setter guarantees), the ISO
13790 and VDI 6007 builds store the same `Htr_op` and the same `Htr_w`
totals. -/
theorem C4_htr_totals_agree (ip : List ℚ → List ℚ → ℚ × ℚ)
    (ts : ℚ → ℚ → ℚ → ℚ × ℚ × ℚ) (surfs : List SurfaceTZ)
    (pI : ISOParams) (pV : VDIParams)
    (hI : ISO13790_params surfs = some pI)
    (hV : VDI6007_params ip ts surfs = some pV)
    (hg : ∀ s ∈ surfs, 0 ≤ s.glazedArea) :
    pI.Htr_op = pV.Htr_op ∧ pI.Htr_w = pV.Htr_w := by
  unfold ISO13790_params at hI
  cases hlI : isoLoop surfs ⟨0, 0, 0, 0, 0⟩ with
  | none => rw [hlI] at hI; exact absurd hI (by simp)
  | some accI =>
    rw [hlI] at hI
    simp only [Option.map_some'] at hI
    injection hI with hI
    subst hI
    unfold VDI6007_params at hV
    cases hlV : vdiLoop surfs vdiInit with
    | none => rw [hlV] at hV; exact absurd hV (by simp)
    | some accV =>
      rw [hlV] at hV
      simp only [Option.map_some'] at hV
      injection hV with hV
      subst hV
      obtain ⟨hIop, hIw⟩ := isoLoop_sums surfs ⟨0, 0, 0, 0, 0⟩ accI hlI
      obtain ⟨hVop, hVw, _, _, _⟩ := vdiLoop_sums surfs vdiInit accV hlV
      have hmap : surfs.map isoHtrWTerm = surfs.map vdiHtrWTerm :=
        List.map_congr_left (fun s hs => htrW_term_eq s (hg s hs))
      constructor
      · show accI.Htr_op = accV.HAW_v.sum
        rw [hIop, hVop]
        simp [vdiInit]
      · show accI.Htr_w = accV.HAF_v.sum
        rw [hIw, hVw, hmap]
        simp [vdiInit]

/-- Witness for C4 at the one-surface zone `[extSurfFix]` (with constant
stand-ins for the two missing auxiliary routines). -/
theorem C4_htr_totals_agree_witness :
    isoParamsFix.Htr_op = vdiParamsFix.Htr_op ∧
    isoParamsFix.Htr_w = vdiParamsFix.Htr_w :=
  C4_htr_totals_agree constIP constTS [extSurfFix] isoParamsFix vdiParamsFix
    (by
      have hne : ¬("ExtWall" = "IntFloor") := by decide
      norm_num [ISO13790_params, isoLoop, isoStep, isoBase, extSurfFix,
        isoParamsFix, SurfaceTZ.isOuterType, hne])
    (by
      norm_num [VDI6007_params, vdiLoop, vdiStep, vdiStepOuter, vdiInit,
        constIP, constTS, extSurfFix, vdiParamsFix, SurfaceTZ.isOuterType])
    (by
      intro s hs
      rcases List.mem_singleton.mp hs with h
      simp [h, extSurfFix])

/-- C2 counterexample: for the zone `[extSurfWinFix, intSurfFix]` the total
outer opaque+glazed area is `6 + 4 = 10 > 8` (the inner total), so the claim
demands the inner branch (eq. 31, value `1/40`); but the source compares only
the opaque outer total (`sum(AreaAW) = 6 ≤ 8`) and computes the outer branch
(eq. 29), storing `RalphaStrAWIW = 1/50 ≠ 1/40`. -/
theorem C2_branch_counterexample :
    innerTotalArea [extSurfWinFix, intSurfFix] <
      outerOpaqueArea [extSurfWinFix, intSurfFix]
        + outerGlazedArea [extSurfWinFix, intSurfFix] ∧
    VDI6007_params constIP constTS [extSurfWinFix, intSurfFix] = some vdiParamsCtrFix ∧
    vdiParamsCtrFix.RalphaStrAWIW = 1/50 ∧
    (vdiLoop [extSurfWinFix, intSurfFix] vdiInit).map
        (fun acc => 1 / (acc.RalphaStrIW.map (fun r => 1 / r)).sum) = some (1/40) ∧
    (1 : ℚ)/50 ≠ 1/40 := by
  have h1 : ¬("IntWall" = "ExtWall") := by decide
  have h2 : ¬("IntWall" = "GroundFloor") := by decide
  have h3 : ¬("IntWall" = "Roof") := by decide
  have h4 : ¬("ExtWall" = "IntWall") := by decide
  have h5 : ¬("ExtWall" = "IntCeiling") := by decide
  have h6 : ¬("ExtWall" = "IntFloor") := by decide
  refine ⟨?_, ?_, ?_, ?_, by norm_num⟩ <;>
    norm_num [VDI6007_params, vdiLoop, vdiStep, vdiStepOuter, vdiInit,
      constIP, constTS, extSurfWinFix, intSurfFix, vdiParamsCtrFix,
      SurfaceTZ.isOuterType, SurfaceTZ.isInnerType, innerTotalArea,
      outerOpaqueArea, outerGlazedArea, innerAreaTerm, outerOpaqueTerm,
      outerGlazedTerm, h1, h2, h3, h4, h5, h6]

/-- C2 amended: `RalphaStrAWIW` is computed from the outer branch (eq. 29)
exactly when the total *opaque* area of outer surfaces (`sum(AreaAW)`, which
excludes glazed areas) is `≤` the total area of inner surfaces
(`sum(AreaIW)`), and from the inner branch (eq. 31) otherwise. -/
theorem C2_branch_amended (ip : List ℚ → List ℚ → ℚ × ℚ)
    (ts : ℚ → ℚ → ℚ → ℚ × ℚ × ℚ) (surfs : List SurfaceTZ) (p : VDIParams)
    (h : VDI6007_params ip ts surfs = some p) :
    ∃ acc, vdiLoop surfs vdiInit = some acc ∧
      acc.AreaAW.sum = outerOpaqueArea surfs ∧
      acc.AreaAF.sum = outerGlazedArea surfs ∧
      acc.AreaIW.sum = innerTotalArea surfs ∧
      p.RalphaStrAWIW =
        (if outerOpaqueArea surfs ≤ innerTotalArea surfs then
          1 / ((acc.RalphaStrAW.map (fun r => 1 / r)).sum
               + (acc.RalphaStrAF.map (fun r => 1 / r)).sum)
        else 1 / (acc.RalphaStrIW.map (fun r => 1 / r)).sum) := by
  unfold VDI6007_params at h
  cases hl : vdiLoop surfs vdiInit with
  | none => rw [hl] at h; exact absurd h (by simp)
  | some acc =>
    rw [hl] at h
    simp only [Option.map_some'] at h
    injection h with h
    subst h
    obtain ⟨_, _, hAW, hAF, hIW⟩ := vdiLoop_sums surfs vdiInit acc hl
    have hAW' : acc.AreaAW.sum = outerOpaqueArea surfs := by
      rw [hAW]; simp [vdiInit]
    have hAF' : acc.AreaAF.sum = outerGlazedArea surfs := by
      rw [hAF]; simp [vdiInit]
    have hIW' : acc.AreaIW.sum = innerTotalArea surfs := by
      rw [hIW]; simp [vdiInit]
    refine ⟨acc, rfl, hAW', hAF', hIW', ?_⟩
    show (if acc.AreaAW.sum ≤ acc.AreaIW.sum then _ else _) = _
    rw [hAW', hIW']

/-- Witness for C2 at the one-surface zone `[intSurfFix]`. -/
theorem C2_branch_amended_witness :
    ∃ acc, vdiLoop [intSurfFix] vdiInit = some acc ∧
      acc.AreaAW.sum = outerOpaqueArea [intSurfFix] ∧
      acc.AreaAF.sum = outerGlazedArea [intSurfFix] ∧
      acc.AreaIW.sum = innerTotalArea [intSurfFix] ∧
      vdiParamsInnerFix.RalphaStrAWIW =
        (if outerOpaqueArea [intSurfFix] ≤ innerTotalArea [intSurfFix] then
          1 / ((acc.RalphaStrAW.map (fun r => 1 / r)).sum
               + (acc.RalphaStrAF.map (fun r => 1 / r)).sum)
        else 1 / (acc.RalphaStrIW.map (fun r => 1 / r)).sum) :=
  C2_branch_amended constIP constTS [intSurfFix] vdiParamsInnerFix (by
    have h1 : ¬("IntWall" = "ExtWall") := by decide
    have h2 : ¬("IntWall" = "GroundFloor") := by decide
    have h3 : ¬("IntWall" = "Roof") := by decide
    norm_num [VDI6007_params, vdiLoop, vdiStep, vdiInit, constIP, constTS,
      intSurfFix, vdiParamsInnerFix, SurfaceTZ.isOuterType,
      SurfaceTZ.isInnerType, h1, h2, h3])

/-- Witness for C3 at the one-surface zone `[extSurfFix]`. -/
theorem C3_iso_final_params_witness :
    isoParamsFix.Am = isoParamsFix.Cm ^ 2 / isoParamsFix.DenAm ∧
    isoParamsFix.Htr_ms = 91/10 * isoParamsFix.Am ∧
    isoParamsFix.Htr_em = 1 / (1 / isoParamsFix.Htr_op - 1 / isoParamsFix.Htr_ms) ∧
    isoParamsFix.Htr_is = 69/20 * isoParamsFix.Atot ∧
    isoParamsFix.UA_tot = isoParamsFix.Htr_op + isoParamsFix.Htr_w ∧
    isoParamsFix.htr_ms = 91/10 ∧ isoParamsFix.h_is = 69/20 :=
  C3_iso_final_params [extSurfFix] isoParamsFix (by
    have hne : ¬("ExtWall" = "IntFloor") := by decide
    norm_num [ISO13790_params, isoLoop, isoStep, isoBase, extSurfFix, isoParamsFix,
      SurfaceTZ.isOuterType, hne])

end Eureca
